import Mathlib

/-!
Verification of the imagemage CLI core: a shallow embedding in Lean 4 of the
request-construction and response-handling client (pkg/gemini/client.go), the
file-naming and output-safety layer (pkg/filehandler/filehandler.go), and the
pure validation prefixes of the generate and edit commands (cmd/generate.go,
cmd/edit.go).  Go strings are modelled as Lean strings (one unit per
character), Go errors as Option String or Except String, the environment as a
function from variable names to values, and the filesystem as an explicit
list of existing paths (for existence checks) or a record of files and
directories (for writes).
-/

namespace Imagemage

/-! ## String helpers modelling the Go standard library -/

/-- Model of Go strings.Contains restricted to character lists: does the
second list occur as a contiguous subsequence of the first argument list? -/
def listHasSeq (pat : List Char) : List Char → Bool
  | [] => pat.isEmpty
  | a :: as => pat.isPrefixOf (a :: as) || listHasSeq pat as

/-- Model of Go strings.Contains s pat. -/
def strContains (s pat : String) : Bool :=
  listHasSeq pat.data s.data

/-- Model of Go strings.ToLower, faithful on ASCII input (the only input the
classification rules inspect: the needles are plain ASCII phrases). -/
def strToLower (s : String) : String :=
  String.mk (s.data.map Char.toLower)

/-! ## Gemini client data model (pkg/gemini/client.go lines 14-93)

Each structure mirrors the Go struct of the same name.  A Go pointer field
becomes an Option; the json omitempty behaviour of string fields is expressed
by presence predicates below.  The Go field AspectRatio is rendered here as
aspectRatioVal. -/

def ModelName : String := "gemini-3-pro-image-preview"

def ModelNameFrugal : String := "gemini-2.5-flash-image"

def BaseURL : String := "https://generativelanguage.googleapis.com/v1beta/models"

/-- Supported aspect ratios for Gemini image models (client.go lines 21-32). -/
def SupportedAspectRatios : List String :=
  ["1:1", "16:9", "9:16", "4:3", "3:4", "3:2", "2:3", "21:9", "5:4", "4:5"]

structure InlineData where
  mimeType : String
  data : String
deriving DecidableEq

structure Part where
  text : String
  inlineData : Option InlineData
deriving DecidableEq

structure Content where
  role : String
  parts : List Part
deriving DecidableEq

structure ImageConfig where
  aspectRatioVal : String
  imageSize : String
deriving DecidableEq

structure GenerationConfig where
  imageConfig : Option ImageConfig
deriving DecidableEq

structure GenerateRequest where
  contents : List Content
  generationConfig : Option GenerationConfig
deriving DecidableEq

structure ErrorInfo where
  code : Int
  message : String
  status : String
deriving DecidableEq

structure Candidate where
  content : Content
deriving DecidableEq

structure GenerateResponse where
  candidates : List Candidate
  error : Option ErrorInfo
deriving DecidableEq

structure Client where
  apiKey : String
  model : String
  baseURLStr : String
deriving DecidableEq

/-- The json tag imageSize,omitempty on ImageConfig.ImageSize omits the member
from the marshalled payload exactly when the string is empty, so the outgoing
payload carries an imageSize field iff this predicate holds. -/
def imageSizeFieldPresent (cfg : ImageConfig) : Bool :=
  cfg.imageSize != ""

/-! ## Credential resolution (client.go lines 106-136) -/

/-- The fixed ordered list of environment variables consulted by getAPIKey
(client.go lines 122-127). -/
def apiKeyEnvNames : List String :=
  ["NANOBANANA_GEMINI_API_KEY", "NANOBANANA_GOOGLE_API_KEY",
   "GEMINI_API_KEY", "GOOGLE_API_KEY"]

/-- The loop body of getAPIKey: return the value of the first variable whose
value is non-empty, or the empty string. -/
def getAPIKeyFrom (env : String → String) : List String → String
  | [] => ""
  | k :: rest => if env k != "" then env k else getAPIKeyFrom env rest

/-- getAPIKey (client.go lines 121-136); the process environment is passed in
as a function from variable names to values (unset reads as the empty
string, exactly as Go os.Getenv reports it). -/
def getAPIKey (env : String → String) : String :=
  getAPIKeyFrom env apiKeyEnvNames

/-- The missing-credential message of NewClientWithModel (client.go line 109). -/
def apiKeyMissingMessage : String :=
  "API key not found. Please set one of: NANOBANANA_GEMINI_API_KEY, NANOBANANA_GOOGLE_API_KEY, GEMINI_API_KEY, or GOOGLE_API_KEY"

/-- NewClientWithModel (client.go lines 106-118).  The http.Client timeout is
transport state with no bearing on the claims and is not modelled. -/
def newClientWithModel (env : String → String) (model : String) : Except String Client :=
  let apiKey := getAPIKey env
  if apiKey = "" then Except.error apiKeyMissingMessage
  else Except.ok { apiKey := apiKey, model := model, baseURLStr := BaseURL }

/-! ## Aspect-ratio validation (client.go lines 139-151) -/

/-- Go fmt %v rendering of the SupportedAspectRatios slice, as interpolated
into the validation error message. -/
def supportedAspectRatiosGoString : String :=
  "[" ++ String.intercalate " " SupportedAspectRatios ++ "]"

/-- The error message of ValidateAspectRatio (client.go line 150). -/
def validateAspectRatioMessage (ar : String) : String :=
  "unsupported aspect ratio: " ++ ar ++ ". Supported: " ++ supportedAspectRatiosGoString

/-- ValidateAspectRatio (client.go lines 139-151); none models a nil error.
The Go function is named ValidateAspectRatio. -/
def validateAspectRatioStr (ar : String) : Option String :=
  if ar = "" then none
  else if SupportedAspectRatios.contains ar then none
  else some (validateAspectRatioMessage ar)

/-! ## Request construction (client.go lines 183-231)

GenerateContentWithFullOptions validates the aspect ratio, assembles the
parts list, and configures imageSize by model tier, all before any network
activity; an Except.error therefore means the function returns with no
remote call attempted.  The HTTP dispatch itself (lines 233-286) is
transport and is not part of the request-construction contract. -/

/-- The image-part loop of GenerateContentWithFullOptions (lines 193-202):
every non-empty base64 string becomes an inline-data part, in order. -/
def imageParts (imagesBase64 : List String) : List Part :=
  (imagesBase64.filter (fun s => s != "")).map
    (fun s => { text := "", inlineData := some { mimeType := "image/png", data := s } })

/-- The imageConfig assembly of GenerateContentWithFullOptions (lines
213-227): start from the aspect ratio; every model other than the frugal one
gets an explicit imageSize, defaulting to 4K; the frugal model leaves
imageSize empty so that omitempty drops the field. -/
def buildImageConfig (model resolution ar : String) : ImageConfig :=
  let cfg : ImageConfig := { aspectRatioVal := ar, imageSize := "" }
  if model != ModelNameFrugal then
    { cfg with imageSize := if resolution = "" then "4K" else resolution }
  else cfg

/-- The pure request-construction prefix of GenerateContentWithFullOptions
(lines 183-231), producing the outgoing payload or the validation error. -/
def buildGenerateRequest (model prompt : String) (imagesBase64 : List String)
    (resolution ar : String) : Except String GenerateRequest :=
  match validateAspectRatioStr ar with
  | some e => Except.error e
  | none =>
    Except.ok
      { contents :=
          [{ role := "user",
             parts := { text := prompt, inlineData := none } :: imageParts imagesBase64 }],
        generationConfig := some { imageConfig := some (buildImageConfig model resolution ar) } }

/-! ## Image extraction (client.go lines 297-328) -/

/-- The data carried by a part's inline-data member, or the empty string when
the member is nil; part.InlineData != nil && part.InlineData.Data != ""
(line 314) is equivalent to this value being non-empty. -/
def partInlinePayload (p : Part) : String :=
  match p.inlineData with
  | some d => d.data
  | none => ""

/-- The text-fallback test of extractImageData (lines 319-324): non-empty,
longer than 1000 units, and containing neither a space nor a newline. -/
def textQualifies (t : String) : Bool :=
  t != "" && t.length > 1000 && !(strContains t " ") && !(strContains t "\n")

/-- The part loop of extractImageData (lines 312-325): for each part in
order, return its inline data when non-empty, otherwise return its text when
it passes the fallback test, otherwise move on. -/
def extractFromParts : List Part → String
  | [] => ""
  | p :: rest =>
    if partInlinePayload p != "" then partInlinePayload p
    else if textQualifies p.text then p.text
    else extractFromParts rest

/-- extractImageData (client.go lines 307-328): scan the first candidate's
parts; the empty string signals that nothing qualified. -/
def extractImageData (result : GenerateResponse) : String :=
  match result.candidates with
  | [] => ""
  | c :: _ => extractFromParts c.content.parts

/-- The response-handling suffix of GenerateContentWithFullOptions (lines
293-303): an embedded error object wins, then extraction, then the
no-image-data failure. -/
def processResponseBody (result : GenerateResponse) : Except String String :=
  match result.error with
  | some e => Except.error ("API error (" ++ toString e.code ++ "): " ++ e.message)
  | none =>
    let imageData := extractImageData result
    if imageData = "" then Except.error "no image data found in response"
    else Except.ok imageData

/-! ## Error classification (client.go lines 331-358)

handleError first replaces the raw body with the embedded error message when
the body parses as an error payload; the argument here is that resulting
message string, and the returned string is the text of the classified
error. -/

def handleError (statusCode : Nat) (bodyStr : String) : String :=
  if statusCode = 400 then
    if strContains bodyStr "safety" then "request rejected due to safety concerns"
    else "malformed request: " ++ bodyStr
  else if statusCode = 403 then
    if strContains (strToLower bodyStr) "api key not valid" then "invalid API key"
    else if strContains (strToLower bodyStr) "quota" then "API quota exceeded"
    else "authentication failed: " ++ bodyStr
  else if statusCode = 500 then "service error: " ++ bodyStr
  else "HTTP " ++ toString statusCode ++ ": " ++ bodyStr

/-! ## Command-layer validation (cmd/generate.go, cmd/edit.go)

The pure pre-dispatch checks of runGenerate and runEdit.  In both commands
these checks run before the Gemini client is even constructed (and a fortiori
before any network call), so a reported error aborts the command with no
remote call attempted. -/

/-- The resolution-limit message shared by runGenerate (generate.go line 108)
and runEdit (edit.go line 110). -/
def frugalResolutionMessage (resolution : String) : String :=
  "--frugal mode only supports 1K resolution, but " ++ resolution ++
    " was requested. Gemini 2.5 Flash only supports 1K (1024px) resolution. Remove --frugal to use higher resolutions"

/-- The slide-incompatibility message of runGenerate (generate.go line 105). -/
def frugalSlideMessage : String :=
  "--frugal mode is incompatible with --slide (which requires 4K resolution). Gemini 2.5 Flash only supports 1K (1024px) resolution"

/-- The frugal-mode validation of runGenerate (generate.go lines 102-110);
some models a returned error, none means the command proceeds. -/
def runGenerateFrugalChecks (frugal slide : Bool) (resolution : String) : Option String :=
  if frugal then
    if slide then some frugalSlideMessage
    else if resolution != "" && resolution != "1K" then
      some (frugalResolutionMessage resolution)
    else none
  else none

/-- The frugal-mode validation of runEdit (edit.go lines 107-115). -/
def runEditFrugalCheck (frugal : Bool) (resolution : String) : Option String :=
  if frugal then
    if resolution != "" && resolution != "1K" then
      some (frugalResolutionMessage resolution)
    else none
  else none

/-- The count-limit message of runEdit (edit.go line 79). -/
def editCountLimitMessage (totalImages : Nat) : String :=
  "too many input images (" ++ toString totalImages ++
    "). Maximum is 14 (base + additional)"

/-- The reference-image count check of runEdit (edit.go lines 76-84), on the
total count base plus additional.  An error aborts the command; ok carries
whether the advisory more-than-three warning is printed. -/
def checkEditImageCount (totalImages : Nat) : Except String Bool :=
  if totalImages > 14 then Except.error (editCountLimitMessage totalImages)
  else Except.ok (decide (totalImages > 3))

/-! ## File handling (pkg/filehandler/filehandler.go)

The filesystem is modelled as the list of currently existing paths for the
existence checks of EnsureUniqueFilename, and as a record of directories and
files for the write effects of SaveImage. -/

/-- The whitespace class of the Go regexp escape in cleanPrompt (the RE2
class matches exactly tab, newline, form feed, carriage return and space). -/
def goWhitespace (c : Char) : Bool :=
  c = ' ' || c = '\t' || c = '\n' || c = '\r' || c = '\x0c'

/-- A character surviving the first regexp of cleanPrompt (filehandler.go
lines 75-76), which deletes everything outside lowercase letters, digits,
whitespace and hyphen. -/
def keepChar (c : Char) : Bool :=
  ('a' ≤ c && c ≤ 'z') || ('0' ≤ c && c ≤ '9') || goWhitespace c || c = '-'

/-- The second regexp of cleanPrompt (lines 79-80): replace every maximal
run of whitespace with a single underscore.  The flag records whether the
previous character was part of a whitespace run. -/
def collapseWsAux : Bool → List Char → List Char
  | _, [] => []
  | prevWs, c :: rest =>
    if goWhitespace c then
      if prevWs then collapseWsAux true rest
      else '_' :: collapseWsAux true rest
    else c :: collapseWsAux false rest

/-- Go strings.Trim with cutset underscore (line 83): drop leading and
trailing underscores. -/
def trimUnderscores (l : List Char) : List Char :=
  ((l.dropWhile (fun c => c = '_')).reverse.dropWhile (fun c => c = '_')).reverse

/-- cleanPrompt (filehandler.go lines 70-86): lowercase, strip, collapse
whitespace to underscores, trim underscores.  Char.toLower models
strings.ToLower faithfully on ASCII; non-ASCII letters are deleted by the
character filter on either reading. -/
def cleanPrompt (prompt : String) : String :=
  String.mk (trimUnderscores (collapseWsAux false ((prompt.data.map Char.toLower).filter keepChar)))

/-- The maxLen truncation of GenerateFilename (lines 47-51). -/
def truncTo (maxLen : Nat) (s : String) : String :=
  if s.length > maxLen then String.mk (s.data.take maxLen) else s

/-- GenerateFilename (filehandler.go lines 43-67). -/
def generateFilename (prompt prefixStr : String) (count : Int) : String :=
  let cleaned := truncTo 50 (cleanPrompt prompt)
  let filename := if prefixStr != "" then prefixStr ++ "_" ++ cleaned else cleaned
  let filename := if count > 0 then filename ++ "_" ++ toString count else filename
  filename ++ ".png"

/-- The reversed extension of a reversed path: the leading segment of the
reversed character list up to and including the first dot, empty when a
slash or the start of the string is reached first.  This mirrors Go
filepath.Ext, which takes the suffix starting at the final dot of the final
path element. -/
def extRevOf : List Char → List Char
  | [] => []
  | c :: rest =>
    if c = '/' then []
    else if c = '.' then [c]
    else
      match extRevOf rest with
      | [] => []
      | r => c :: r

/-- Model of Go filepath.Ext. -/
def extOf (p : String) : String :=
  String.mk (extRevOf p.data.reverse).reverse

/-- Model of Go strings.TrimSuffix. -/
def trimSuffixStr (s suf : String) : String :=
  if suf.data.isSuffixOf s.data then String.mk (s.data.take (s.data.length - suf.data.length))
  else s

/-- The candidate path tried by the collision loop: base, underscore,
decimal counter, extension (filehandler.go line 100). -/
def uniqueCandidate (base ext : String) (n : Nat) : String :=
  base ++ "_" ++ Nat.repr n ++ ext

/-- The counter loop of EnsureUniqueFilename (lines 98-105).  The source
loop is unbounded and stops at the first free candidate; here it carries
explicit fuel, and the fuel chosen below provably suffices because a list of
existing paths cannot contain every one of that many distinct candidates. -/
def ensureUniqueLoop (fs : List String) (base ext : String) : Nat → Nat → String
  | counter, 0 => uniqueCandidate base ext counter
  | counter, fuel + 1 =>
    let newPath := uniqueCandidate base ext counter
    if newPath ∈ fs then ensureUniqueLoop fs base ext (counter + 1) fuel
    else newPath

/-- EnsureUniqueFilename (filehandler.go lines 89-106); fs is the list of
paths that currently exist on disk. -/
def ensureUniqueFilename (fs : List String) (path : String) : String :=
  if path ∈ fs then
    let ext := extOf path
    let base := trimSuffixStr path ext
    ensureUniqueLoop fs base ext 1 (fs.length + 1)
  else path

/-- The write sequence of the claim about repeated writes: each round
resolves a unique name for the same requested path against the current
filesystem and then creates that file, as the generate loop does
(generate.go lines 190-193). -/
def writeSequence (fs : List String) (path : String) : Nat → List String
  | 0 => []
  | n + 1 =>
    let name := ensureUniqueFilename fs path
    name :: writeSequence (name :: fs) path n

/-! ## Base64 decoding and SaveImage (filehandler.go lines 19-40)

Model of Go encoding/base64 StdEncoding.DecodeString: standard alphabet,
mandatory padding to a multiple of four characters, carriage returns and
newlines skipped, anything else rejected.  Bytes are modelled as Nat values
below 256. -/

/-- The value of a standard-alphabet base64 character. -/
def base64CharVal (c : Char) : Option Nat :=
  if 'A' ≤ c && c ≤ 'Z' then some (c.toNat - 65)
  else if 'a' ≤ c && c ≤ 'z' then some (c.toNat - 97 + 26)
  else if '0' ≤ c && c ≤ '9' then some (c.toNat - 48 + 52)
  else if c = '+' then some 62
  else if c = '/' then some 63
  else none

/-- Decode a padded base64 character stream four characters at a time;
padding is accepted only in the final quantum. -/
def base64DecodeChunks : List Char → Option (List Nat)
  | [] => some []
  | a :: b :: c :: d :: rest =>
    match base64CharVal a, base64CharVal b with
    | some va, some vb =>
      if rest.isEmpty && c = '=' && d = '=' then
        some [va * 4 + vb / 16]
      else if rest.isEmpty && d = '=' then
        match base64CharVal c with
        | some vc => some [va * 4 + vb / 16, (vb % 16) * 16 + vc / 4]
        | none => none
      else
        match base64CharVal c, base64CharVal d with
        | some vc, some vd =>
          match base64DecodeChunks rest with
          | some tail => some ([va * 4 + vb / 16, (vb % 16) * 16 + vc / 4, (vc % 4) * 64 + vd] ++ tail)
          | none => none
        | _, _ => none
    | _, _ => none
  | _ => none

/-- Model of Go base64.StdEncoding.DecodeString; the decoder skips carriage
returns and newlines before processing. -/
def base64Decode (s : String) : Option (List Nat) :=
  base64DecodeChunks (s.data.filter (fun c => c != '\r' && c != '\n'))

/-- Model of Go filepath.Dir: everything before the last slash, a dot for a
bare filename, a slash for a path directly under the root. -/
def dirOfPath (p : String) : String :=
  match p.data.reverse.dropWhile (fun c => c != '/') with
  | [] => "."
  | _ :: restRev => if restRev.isEmpty then "/" else String.mk restRev.reverse

/-- The on-disk state: created directories and written files (path paired
with contents). -/
structure FileSystem where
  dirs : List String
  files : List (String × List Nat)
deriving DecidableEq

/-- Model of os.MkdirAll on the abstract state. -/
def mkdirAll (fs : FileSystem) (dir : String) : FileSystem :=
  { fs with dirs := if dir ∈ fs.dirs then fs.dirs else dir :: fs.dirs }

/-- Model of os.WriteFile on the abstract state: create or overwrite. -/
def writeFileFS (fs : FileSystem) (path : String) (bytes : List Nat) : FileSystem :=
  { fs with files := (path, bytes) :: fs.files.filter (fun kv => kv.1 != path) }

/-- SaveImage (filehandler.go lines 19-40): decode the payload, create the
parent directory when needed, write the bytes.  Returns the Go error
outcome paired with the resulting filesystem; the decode-failure message is
modelled without the wrapped cause text appended by the Errorf %w verb.
Directory creation and the write themselves are modelled as succeeding, so
the model pins exactly which states a decode failure can reach. -/
def saveImage (imageData outputPath : String) (fs : FileSystem) :
    Except String Unit × FileSystem :=
  match base64Decode imageData with
  | none => (Except.error "failed to decode image data", fs)
  | some decoded =>
    let dir := dirOfPath outputPath
    let fs1 := if dir != "" && dir != "." then mkdirAll fs dir else fs
    (Except.ok (), writeFileFS fs1 outputPath decoded)

/-! ## Proof infrastructure definitions -/

/-- The per-part payload rule of image extraction, stated once for a single
part: inline data when non-empty, otherwise qualifying text, otherwise
nothing.  Extraction returns the payload of the first part for which this is
some value. -/
def partPayload (p : Part) : Option String :=
  if partInlinePayload p != "" then some (partInlinePayload p)
  else if textQualifies p.text then some p.text
  else none

/-- A 1001-character whitespace-free text, long enough for the fallback. -/
def cexLongText : String := String.mk (List.replicate 1001 'a')

/-- A parts list whose first part is qualifying long text and whose second
part carries inline image data. -/
def cexParts : List Part :=
  [{ text := cexLongText, inlineData := none },
   { text := "", inlineData := some { mimeType := "image/png", data := "IMG" } }]

/-- The response wrapping cexParts as the sole candidate. -/
def cexResp : GenerateResponse :=
  { candidates := [{ content := { role := "model", parts := cexParts } }], error := none }

/-- A response whose sole candidate has a single plain text part, as used by
the extraction scenarios. -/
def singleTextResponse (r t : String) : GenerateResponse :=
  { candidates := [{ content := { role := r, parts := [{ text := t, inlineData := none }] } }],
    error := none }

/-- The 1500-character whitespace-free text of the end-to-end extraction
scenario. -/
def wLongText : String := String.mk (List.replicate 1500 'b')

/-- The payload produced by buildGenerateRequest for the standard model with
prompt p, no images, resolution and aspect ratio unset. -/
def wReqStd : GenerateRequest :=
  { contents := [{ role := "user", parts := [{ text := "p", inlineData := none }] }],
    generationConfig := some { imageConfig := some { aspectRatioVal := "", imageSize := "4K" } } }

/-- The payload produced by buildGenerateRequest for the frugal model with
prompt p, no images, resolution and aspect ratio unset. -/
def wReqFrugal : GenerateRequest :=
  { contents := [{ role := "user", parts := [{ text := "p", inlineData := none }] }],
    generationConfig := some { imageConfig := some { aspectRatioVal := "", imageSize := "" } } }

/-- The decimal value of a digit character, for reading a rendered numeral
back. -/
def decDigitVal (c : Char) : Nat := c.toNat - 48

/-- The number denoted by a list of decimal digit characters. -/
def digitsVal (l : List Char) : Nat :=
  l.foldl (fun acc c => acc * 10 + decDigitVal c) 0

/-! ## General lemmas -/

theorem digitsVal_append (l : List Char) (c : Char) :
    digitsVal (l ++ [c]) = digitsVal l * 10 + decDigitVal c := by
  simp [digitsVal, List.foldl_append]

theorem digitChar_decDigitVal (n : Nat) (h : n < 10) :
    decDigitVal (Nat.digitChar n) = n := by
  interval_cases n <;> rfl

theorem toDigitsCore_append (b : Nat) :
    ∀ (fuel n : Nat) (ds : List Char),
      Nat.toDigitsCore b fuel n ds = Nat.toDigitsCore b fuel n [] ++ ds := by
  intro fuel
  induction fuel with
  | zero => intro n ds; rfl
  | succ fuel ih =>
    intro n ds
    simp only [Nat.toDigitsCore]
    by_cases h : n / b = 0
    · simp [h]
    · rw [if_neg h, if_neg h, ih (n / b) (Nat.digitChar (n % b) :: ds),
        ih (n / b) [Nat.digitChar (n % b)], List.append_assoc]
      rfl

theorem toDigitsCore_eval :
    ∀ (fuel n : Nat), n < fuel → digitsVal (Nat.toDigitsCore 10 fuel n []) = n := by
  intro fuel
  induction fuel with
  | zero => intro n h; exact absurd h (Nat.not_lt_zero n)
  | succ fuel ih =>
    intro n h
    simp only [Nat.toDigitsCore]
    by_cases h0 : n / 10 = 0
    · have hlt : n < 10 := by
        have := Nat.div_add_mod n 10
        have := Nat.mod_lt n (show 0 < 10 by omega)
        omega
      rw [if_pos h0]
      have : digitsVal [Nat.digitChar (n % 10)] = decDigitVal (Nat.digitChar (n % 10)) := by
        simp [digitsVal]
      rw [this, digitChar_decDigitVal _ (Nat.mod_lt n (by omega)), Nat.mod_eq_of_lt hlt]
    · have hpos : 0 < n := by
        rcases Nat.eq_zero_or_pos n with h' | h'
        · exact absurd (by simp [h']) h0
        · exact h'
      have hdiv : n / 10 < n := Nat.div_lt_self hpos (by omega)
      rw [if_neg h0, toDigitsCore_append, digitsVal_append,
        ih (n / 10) (by omega), digitChar_decDigitVal _ (Nat.mod_lt n (by omega))]
      have := Nat.div_add_mod n 10
      omega

theorem natRepr_injective : Function.Injective Nat.repr := by
  intro m n h
  have hm := toDigitsCore_eval (m + 1) m (Nat.lt_succ_self m)
  have hn := toDigitsCore_eval (n + 1) n (Nat.lt_succ_self n)
  have hdata : Nat.toDigitsCore 10 (m + 1) m [] = Nat.toDigitsCore 10 (n + 1) n [] := by
    have h' := congrArg String.data h
    simpa [Nat.repr, Nat.toDigits, List.asString] using h'
  rw [← hm, ← hn, hdata]

theorem uniqueCandidate_injective (base ext : String) :
    Function.Injective (uniqueCandidate base ext) := by
  intro m n h
  unfold uniqueCandidate at h
  have hd := congrArg String.data h
  simp only [String.data_append, List.append_assoc] at hd
  have h1 := List.append_cancel_left hd
  have h2 := List.append_cancel_left h1
  have h3 := List.append_cancel_right h2
  exact natRepr_injective (String.ext h3)

theorem exists_free_uniqueCandidate (fs : List String) (base ext : String) :
    ∃ n, 1 ≤ n ∧ n ≤ fs.length + 1 ∧ uniqueCandidate base ext n ∉ fs := by
  by_contra hall
  push_neg at hall
  have hsub : (List.range' 1 (fs.length + 1)).map (uniqueCandidate base ext) ⊆ fs := by
    intro x hx
    obtain ⟨n, hn, rfl⟩ := List.mem_map.mp hx
    obtain ⟨i, hi, rfl⟩ := List.mem_range'.mp hn
    exact hall _ (by omega) (by omega)
  have hnd : ((List.range' 1 (fs.length + 1)).map (uniqueCandidate base ext)).Nodup :=
    (List.nodup_range' 1 (fs.length + 1)).map (uniqueCandidate_injective base ext)
  have hle := (List.subperm_of_subset hnd hsub).length_le
  simp [List.length_range'] at hle

theorem ensureUniqueLoop_found (fs : List String) (base ext : String) :
    ∀ (fuel counter : Nat),
      (∃ j, counter ≤ j ∧ j < counter + fuel ∧ uniqueCandidate base ext j ∉ fs) →
      ∃ k, counter ≤ k ∧
        ensureUniqueLoop fs base ext counter fuel = uniqueCandidate base ext k ∧
        uniqueCandidate base ext k ∉ fs ∧
        ∀ j, counter ≤ j → j < k → uniqueCandidate base ext j ∈ fs := by
  intro fuel
  induction fuel with
  | zero =>
    intro counter h
    obtain ⟨j, hj1, hj2, _⟩ := h
    omega
  | succ fuel ih =>
    intro counter h
    obtain ⟨j, hj1, hj2, hjf⟩ := h
    by_cases hc : uniqueCandidate base ext counter ∈ fs
    · have hjc : j ≠ counter := fun e => hjf (e ▸ hc)
      obtain ⟨k, hk1, hk2, hk3, hk4⟩ := ih (counter + 1) ⟨j, by omega, by omega, hjf⟩
      refine ⟨k, by omega, ?_, hk3, ?_⟩
      · simpa [ensureUniqueLoop, hc] using hk2
      · intro j' h1 h2
        rcases Nat.eq_or_lt_of_le h1 with h1' | h1'
        · exact h1' ▸ hc
        · exact hk4 j' (by omega) h2
    · exact ⟨counter, Nat.le_refl _, by simp [ensureUniqueLoop, hc], hc, fun j' h1 h2 => by omega⟩

theorem ensureUniqueFilename_minimal (fs : List String) (path : String) (h : path ∈ fs) :
    ∃ k, 1 ≤ k ∧
      ensureUniqueFilename fs path =
        uniqueCandidate (trimSuffixStr path (extOf path)) (extOf path) k ∧
      uniqueCandidate (trimSuffixStr path (extOf path)) (extOf path) k ∉ fs ∧
      ∀ j, 1 ≤ j → j < k →
        uniqueCandidate (trimSuffixStr path (extOf path)) (extOf path) j ∈ fs := by
  obtain ⟨n, hn1, hn2, hnf⟩ :=
    exists_free_uniqueCandidate fs (trimSuffixStr path (extOf path)) (extOf path)
  obtain ⟨k, hk1, hk2, hk3, hk4⟩ :=
    ensureUniqueLoop_found fs (trimSuffixStr path (extOf path)) (extOf path)
      (fs.length + 1) 1 ⟨n, hn1, by omega, hnf⟩
  exact ⟨k, hk1, by simpa [ensureUniqueFilename, h] using hk2, hk3, hk4⟩

theorem ensureUniqueFilename_not_mem (fs : List String) (path : String) :
    ensureUniqueFilename fs path ∉ fs := by
  by_cases h : path ∈ fs
  · obtain ⟨k, _, hk2, hk3, _⟩ := ensureUniqueFilename_minimal fs path h
    rw [hk2]; exact hk3
  · rw [ensureUniqueFilename, if_neg h]; exact h

theorem writeSequence_not_mem (path : String) :
    ∀ (n : Nat) (fs : List String), ∀ x ∈ writeSequence fs path n, x ∉ fs := by
  intro n
  induction n with
  | zero => intro fs x hx; simp [writeSequence] at hx
  | succ n ih =>
    intro fs x hx
    rcases List.mem_cons.mp hx with rfl | hx'
    · exact ensureUniqueFilename_not_mem fs path
    · intro hmem
      exact ih (ensureUniqueFilename fs path :: fs) x hx' (List.mem_cons_of_mem _ hmem)

theorem writeSequence_nodup (path : String) :
    ∀ (n : Nat) (fs : List String), (writeSequence fs path n).Nodup := by
  intro n
  induction n with
  | zero => intro fs; simp [writeSequence]
  | succ n ih =>
    intro fs
    refine List.nodup_cons.mpr ⟨?_, ih _⟩
    intro hmem
    exact writeSequence_not_mem path n (ensureUniqueFilename fs path :: fs) _ hmem
      (List.mem_cons_self _ _)

/-! ## Request-construction lemmas -/

theorem buildGenerateRequest_ok_config (model prompt : String) (imgs : List String)
    (resolution ar : String) (req : GenerateRequest)
    (h : buildGenerateRequest model prompt imgs resolution ar = Except.ok req) :
    req.generationConfig = some { imageConfig := some (buildImageConfig model resolution ar) } := by
  unfold buildGenerateRequest at h
  cases hv : validateAspectRatioStr ar with
  | some e => rw [hv] at h; exact Except.noConfusion h
  | none =>
    rw [hv] at h
    have := Except.ok.inj h
    rw [← this]

theorem buildImageConfig_standard (resolution ar : String) :
    buildImageConfig ModelName resolution ar =
      { aspectRatioVal := ar, imageSize := if resolution = "" then "4K" else resolution } := by
  rw [buildImageConfig, if_pos (by decide)]

theorem buildImageConfig_frugal (resolution ar : String) :
    buildImageConfig ModelNameFrugal resolution ar =
      { aspectRatioVal := ar, imageSize := "" } := by
  rw [buildImageConfig, if_neg (by decide)]

/-! ## Credential lemmas -/

theorem getAPIKeyFrom_eq_find (env : String → String) (l : List String) :
    getAPIKeyFrom env l = ((l.map env).find? (fun v => v != "")).getD "" := by
  induction l with
  | nil => rfl
  | cons k rest ih =>
    by_cases h : (env k != "") = true
    · simp [getAPIKeyFrom, List.find?_cons, h]
    · simp only [Bool.not_eq_true] at h
      simp [getAPIKeyFrom, List.find?_cons, h, ih]

theorem getAPIKeyFrom_all_empty (env : String → String) (l : List String)
    (h : ∀ k ∈ l, env k = "") : getAPIKeyFrom env l = "" := by
  induction l with
  | nil => rfl
  | cons k rest ih =>
    rw [getAPIKeyFrom, if_neg (by simp [h k (List.mem_cons_self k rest)]),
      ih (fun k' hk' => h k' (List.mem_cons_of_mem _ hk'))]

/-! ## Extraction lemmas -/

theorem extractFromParts_cons (p : Part) (rest : List Part) :
    extractFromParts (p :: rest) =
      match partPayload p with
      | some v => v
      | none => extractFromParts rest := by
  by_cases h1 : (partInlinePayload p != "") = true
  · simp [extractFromParts, partPayload, h1]
  · by_cases h2 : textQualifies p.text = true
    · simp [extractFromParts, partPayload, h1, h2]
    · simp [extractFromParts, partPayload, h1, h2]

theorem extractFromParts_first_qualifying (parts : List Part) :
    (extractFromParts parts = "" ∧ ∀ p ∈ parts, partPayload p = none) ∨
    (∃ pre q post, parts = pre ++ q :: post ∧
      partPayload q = some (extractFromParts parts) ∧
      ∀ p ∈ pre, partPayload p = none) := by
  induction parts with
  | nil => exact Or.inl ⟨rfl, by simp⟩
  | cons p rest ih =>
    cases hp : partPayload p with
    | some v =>
      refine Or.inr ⟨[], p, rest, rfl, ?_, by simp⟩
      rw [extractFromParts_cons, hp]
    | none =>
      have hstep : extractFromParts (p :: rest) = extractFromParts rest := by
        rw [extractFromParts_cons, hp]
      rcases ih with ⟨h1, h2⟩ | ⟨pre, q, post, heq, hq, hpre⟩
      · refine Or.inl ⟨by rw [hstep, h1], ?_⟩
        intro p' hp'
        rcases List.mem_cons.mp hp' with rfl | hp''
        · exact hp
        · exact h2 p' hp''
      · refine Or.inr ⟨p :: pre, q, post, by simp [heq], by rw [hstep, hq], ?_⟩
        intro p' hp'
        rcases List.mem_cons.mp hp' with rfl | hp''
        · exact hp
        · exact hpre p' hp''

/-! ## Claim theorems -/

/-- Claim C1: every request built by GenerateContentWithFullOptions for the
standard-tier model carries an explicit imageSize in
generationConfig.imageConfig, equal to the caller's resolution when set and
to 4K when unset; for the frugal-tier model the imageSize string stays empty,
so omitempty drops the field from the payload for every resolution. -/
theorem standard_sends_imageSize_frugal_omits
    (prompt : String) (imgs : List String) (resolution ar : String)
    (req reqF : GenerateRequest) :
    (buildGenerateRequest ModelName prompt imgs resolution ar = Except.ok req →
      ∃ cfg, req.generationConfig = some { imageConfig := some cfg } ∧
        cfg.imageSize = (if resolution = "" then "4K" else resolution) ∧
        imageSizeFieldPresent cfg = true) ∧
    (buildGenerateRequest ModelNameFrugal prompt imgs resolution ar = Except.ok reqF →
      ∃ cfg, reqF.generationConfig = some { imageConfig := some cfg } ∧
        cfg.imageSize = "" ∧ imageSizeFieldPresent cfg = false) := by
  constructor
  · intro h
    refine ⟨buildImageConfig ModelName resolution ar,
      buildGenerateRequest_ok_config _ _ _ _ _ _ h, ?_, ?_⟩
    · rw [buildImageConfig_standard]
    · rw [buildImageConfig_standard, imageSizeFieldPresent]
      by_cases hr : resolution = "" <;> simp [hr]
  · intro h
    refine ⟨buildImageConfig ModelNameFrugal resolution ar,
      buildGenerateRequest_ok_config _ _ _ _ _ _ h, ?_, ?_⟩
    · rw [buildImageConfig_frugal]
    · simp [buildImageConfig_frugal, imageSizeFieldPresent]

/-- Witness for C1 at concrete inputs: an unset resolution on the standard
model yields imageSize 4K, and the frugal model yields an absent field. -/
theorem standard_sends_imageSize_frugal_omits_witness :
    (∃ cfg, wReqStd.generationConfig = some { imageConfig := some cfg } ∧
      cfg.imageSize = (if "" = "" then "4K" else "") ∧ imageSizeFieldPresent cfg = true) ∧
    (∃ cfg, wReqFrugal.generationConfig = some { imageConfig := some cfg } ∧
      cfg.imageSize = "" ∧ imageSizeFieldPresent cfg = false) :=
  ⟨(standard_sends_imageSize_frugal_omits "p" [] "" "" wReqStd wReqFrugal).1 rfl,
   (standard_sends_imageSize_frugal_omits "p" [] "" "" wReqStd wReqFrugal).2 rfl⟩

/-- Claim C2: in frugal mode, a resolution other than 1K fails the
command-level validation of both runGenerate and runEdit (these checks run
before client construction and dispatch); with resolution unset or 1K the
checks pass, request construction succeeds, and the frugal payload carries no
imageSize field. -/
theorem frugal_resolution_guard (resolution prompt : String) (imgs : List String) :
    (resolution ≠ "" → resolution ≠ "1K" →
      runGenerateFrugalChecks true false resolution = some (frugalResolutionMessage resolution) ∧
      runEditFrugalCheck true resolution = some (frugalResolutionMessage resolution)) ∧
    ((resolution = "" ∨ resolution = "1K") →
      runGenerateFrugalChecks true false resolution = none ∧
      runEditFrugalCheck true resolution = none) ∧
    (∃ req cfg, buildGenerateRequest ModelNameFrugal prompt imgs resolution "" = Except.ok req ∧
      req.generationConfig = some { imageConfig := some cfg } ∧
      imageSizeFieldPresent cfg = false) := by
  refine ⟨?_, ?_, ?_⟩
  · intro h1 h2
    constructor <;> simp [runGenerateFrugalChecks, runEditFrugalCheck, h1, h2]
  · intro h
    rcases h with h | h <;> subst h <;> constructor <;> rfl
  · refine ⟨_, _, rfl, rfl, ?_⟩
    simp [buildImageConfig_frugal, imageSizeFieldPresent]

/-- Witness for C2: resolution 2K is rejected by both commands in frugal
mode, while 1K and unset pass. -/
theorem frugal_resolution_guard_witness :
    (runGenerateFrugalChecks true false "2K" = some (frugalResolutionMessage "2K") ∧
      runEditFrugalCheck true "2K" = some (frugalResolutionMessage "2K")) ∧
    (runGenerateFrugalChecks true false "1K" = none ∧ runEditFrugalCheck true "1K" = none) ∧
    (runGenerateFrugalChecks true false "" = none ∧ runEditFrugalCheck true "" = none) :=
  ⟨(frugal_resolution_guard "2K" "p" []).1 (by decide) (by decide),
   (frugal_resolution_guard "1K" "p" []).2.1 (Or.inr rfl),
   (frugal_resolution_guard "" "p" []).2.1 (Or.inl rfl)⟩

set_option maxRecDepth 20000 in
/-- Counterexample for C3 as frozen: the claim says the text fallback is
consulted only when no part carries inline data, but extractImageData checks
inline data and the text fallback part by part in a single pass.  In this
response the second part carries inline data IMG, yet the qualifying long
text of the first part is returned instead of IMG. -/
theorem extractImageData_inline_preference_cex :
    (∃ p ∈ cexParts, partInlinePayload p = "IMG") ∧
    (∀ p ∈ cexParts, partInlinePayload p ≠ "" → partInlinePayload p = "IMG") ∧
    extractImageData cexResp = cexLongText ∧
    cexLongText ≠ "IMG" := by decide

/-- Claim C3 as amended: extraction scans the first candidate's parts in
order and returns the payload of the first part that qualifies under the
per-part rule (inline data when non-empty, else text longer than 1000 units
containing neither space nor newline); within one part inline data is
preferred over text, but a qualifying text part earlier in the list wins over
inline data later in the list.  If no part qualifies the call fails with the
no-image-data error, and a lone long whitespace-free text part is returned as
the payload. -/
theorem extractImageData_first_qualifying (parts : List Part) (resp : GenerateResponse)
    (t r : String) :
    ((extractFromParts parts = "" ∧ ∀ p ∈ parts, partPayload p = none) ∨
      (∃ pre q post, parts = pre ++ q :: post ∧
        partPayload q = some (extractFromParts parts) ∧
        ∀ p ∈ pre, partPayload p = none)) ∧
    (resp.error = none → extractImageData resp = "" →
      processResponseBody resp = Except.error "no image data found in response") ∧
    ((t != "") = true → t.length > 1000 →
      strContains t " " = false → strContains t "\n" = false →
      extractImageData (singleTextResponse r t) = t) := by
  refine ⟨extractFromParts_first_qualifying parts, ?_, ?_⟩
  · intro herr hex
    rw [processResponseBody, herr]
    simp [hex]
  · intro h1 h2 h3 h4
    rw [singleTextResponse, extractImageData]
    simp [extractFromParts, partInlinePayload, textQualifies, h1, h2, h3, h4]

set_option maxRecDepth 20000 in
/-- Witness for C3: a response whose only part is a 1500-character text with
no spaces or newlines yields that text as the image payload, and a response
with no qualifying parts fails with the no-image-data error. -/
theorem extractImageData_first_qualifying_witness :
    extractImageData (singleTextResponse "model" wLongText) = wLongText ∧
    processResponseBody { candidates := [], error := none } =
      Except.error "no image data found in response" :=
  ⟨(extractImageData_first_qualifying [] { candidates := [], error := none }
      wLongText "model").2.2
    (by decide) (by decide) (by decide) (by decide),
   (extractImageData_first_qualifying [] { candidates := [], error := none } "" "").2.1
    rfl rfl⟩

/-- Counterexample for C4 as frozen: the empty string is not in the fixed
supported set, yet ValidateAspectRatio accepts it (empty means unset and is
valid at line 140). -/
theorem validateAspectRatio_accepts_empty_cex :
    validateAspectRatioStr "" = none ∧ "" ∉ SupportedAspectRatios := by decide

/-- Claim C4 as amended: every string in the supported set validates; every
non-empty string outside the set fails with a message naming the offending
input and listing the full supported set, and request construction returns
that error before any dispatch; the empty string (unset) is also accepted. -/
theorem validateAspectRatio_spec (ar model prompt : String) (imgs : List String)
    (resolution : String) :
    (ar ∈ SupportedAspectRatios → validateAspectRatioStr ar = none) ∧
    (ar ∉ SupportedAspectRatios → ar ≠ "" →
      validateAspectRatioStr ar = some (validateAspectRatioMessage ar) ∧
      buildGenerateRequest model prompt imgs resolution ar =
        Except.error (validateAspectRatioMessage ar)) ∧
    validateAspectRatioMessage ar =
      "unsupported aspect ratio: " ++ ar ++ ". Supported: " ++ supportedAspectRatiosGoString ∧
    (∀ s ∈ SupportedAspectRatios, listHasSeq s.data supportedAspectRatiosGoString.data = true) := by
  refine ⟨?_, ?_, rfl, by decide⟩
  · intro h
    rw [validateAspectRatioStr]
    by_cases he : ar = ""
    · rw [if_pos he]
    · rw [if_neg he, if_pos (List.contains_iff_exists_mem_beq.mpr ⟨ar, h, by simp⟩)]
  · intro hmem hne
    have hv : validateAspectRatioStr ar = some (validateAspectRatioMessage ar) := by
      rw [validateAspectRatioStr, if_neg hne, if_neg]
      intro hc
      obtain ⟨a', ha', hbeq⟩ := List.contains_iff_exists_mem_beq.mp hc
      exact hmem ((eq_of_beq hbeq) ▸ ha')
    exact ⟨hv, by rw [buildGenerateRequest, hv]⟩

/-- Witness for C4: the string 7:9 is outside the set and is rejected with
the exact message before dispatch, while 16:9 is accepted. -/
theorem validateAspectRatio_spec_witness :
    validateAspectRatioStr "16:9" = none ∧
    (validateAspectRatioStr "7:9" = some (validateAspectRatioMessage "7:9") ∧
      buildGenerateRequest ModelName "p" [] "" "7:9" =
        Except.error (validateAspectRatioMessage "7:9")) :=
  ⟨(validateAspectRatio_spec "16:9" ModelName "p" [] "").1 (by decide),
   (validateAspectRatio_spec "7:9" ModelName "p" [] "").2.1 (by decide) (by decide)⟩

/-- Counterexample for C5 as frozen: the claim classifies every 403 whose
message contains quota (case-insensitively) as quota-exceeded, but
handleError checks for an invalid key first, so a message mentioning both is
classified as invalid-credential. -/
theorem handleError_quota_precedence_cex :
    strContains (strToLower "API key not valid: quota exceeded") "quota" = true ∧
    handleError 403 "API key not valid: quota exceeded" = "invalid API key" ∧
    handleError 403 "API key not valid: quota exceeded" ≠ "API quota exceeded" := by decide

/-- Claim C5 as amended: for 403 the invalid-key check precedes the quota
check, so quota-exceeded applies exactly when the lowercased message contains
quota but not the invalid-key phrase; 400 splits on a safety mention,
500 is a service error, and any other status code yields the unclassified
message carrying the original code and raw message. -/
theorem handleError_classification (body : String) (code : Nat) :
    (strContains (strToLower body) "api key not valid" = true →
      handleError 403 body = "invalid API key") ∧
    (strContains (strToLower body) "api key not valid" = false →
      strContains (strToLower body) "quota" = true →
      handleError 403 body = "API quota exceeded") ∧
    (strContains (strToLower body) "api key not valid" = false →
      strContains (strToLower body) "quota" = false →
      handleError 403 body = "authentication failed: " ++ body) ∧
    (strContains body "safety" = true →
      handleError 400 body = "request rejected due to safety concerns") ∧
    (strContains body "safety" = false →
      handleError 400 body = "malformed request: " ++ body) ∧
    handleError 500 body = "service error: " ++ body ∧
    (code ≠ 400 → code ≠ 403 → code ≠ 500 →
      handleError code body = "HTTP " ++ toString code ++ ": " ++ body) := by
  refine ⟨?_, ?_, ?_, ?_, ?_, rfl, ?_⟩
  · intro h; simp [handleError, h]
  · intro h1 h2; simp [handleError, h1, h2]
  · intro h1 h2; simp [handleError, h1, h2]
  · intro h; simp [handleError, h]
  · intro h; simp [handleError, h]
  · intro h1 h2 h3; simp [handleError, h1, h2, h3]

/-- Witness for C5 at concrete messages: an uppercase Quota message on 403
classifies as quota-exceeded, a safety message on 400 as safety-rejected, an
invalid-key message as invalid-credential, and 418 is unclassified. -/
theorem handleError_classification_witness :
    handleError 403 "Quota exceeded for project" = "API quota exceeded" ∧
    handleError 403 "API key not valid" = "invalid API key" ∧
    handleError 400 "blocked by safety system" = "request rejected due to safety concerns" ∧
    handleError 400 "bad field" = "malformed request: " ++ "bad field" ∧
    handleError 500 "boom" = "service error: " ++ "boom" ∧
    handleError 418 "teapot" = "HTTP " ++ toString 418 ++ ": " ++ "teapot" :=
  ⟨(handleError_classification "Quota exceeded for project" 418).2.1 (by decide) (by decide),
   (handleError_classification "API key not valid" 418).1 (by decide),
   (handleError_classification "blocked by safety system" 418).2.2.2.1 (by decide),
   (handleError_classification "bad field" 418).2.2.2.2.1 (by decide),
   (handleError_classification "boom" 418).2.2.2.2.2.1,
   (handleError_classification "teapot" 418).2.2.2.2.2.2
     (by decide) (by decide) (by decide)⟩

/-- Claim C6: client construction resolves the credential as the value of
the first non-empty variable in the fixed ordered list
NANOBANANA_GEMINI_API_KEY, NANOBANANA_GOOGLE_API_KEY, GEMINI_API_KEY,
GOOGLE_API_KEY; when every one of them is empty or unset, construction fails
immediately with the missing-credential error (NewClientWithModel returns
before any request object or network activity exists). -/
theorem apiKey_resolution_spec (env : String → String) (model : String) :
    getAPIKey env = ((apiKeyEnvNames.map env).find? (fun v => v != "")).getD "" ∧
    ((∀ k ∈ apiKeyEnvNames, env k = "") →
      newClientWithModel env model = Except.error apiKeyMissingMessage) := by
  refine ⟨getAPIKeyFrom_eq_find env apiKeyEnvNames, ?_⟩
  intro h
  rw [newClientWithModel]
  simp [getAPIKey, getAPIKeyFrom_all_empty env apiKeyEnvNames h]

/-- Witness for C6: in the empty environment construction fails with the
missing-credential error, and with the second variable set the credential
resolves to its value. -/
theorem apiKey_resolution_spec_witness :
    newClientWithModel (fun _ => "") "m" = Except.error apiKeyMissingMessage ∧
    getAPIKey (fun k => if k = "NANOBANANA_GOOGLE_API_KEY" then "sk2" else "") =
      ((apiKeyEnvNames.map
          (fun k => if k = "NANOBANANA_GOOGLE_API_KEY" then "sk2" else "")).find?
        (fun v => v != "")).getD "" :=
  ⟨(apiKey_resolution_spec (fun _ => "") "m").2 (fun _ _ => rfl),
   (apiKey_resolution_spec (fun k => if k = "NANOBANANA_GOOGLE_API_KEY" then "sk2" else "")
      "m").1⟩

/-- Claim C7: EnsureUniqueFilename returns its input path unchanged when no
file exists at it; when the path exists it returns the candidate with the
smallest unused counter at least 1, inserted between the stem and the
extension, every smaller counter being taken; consequently n writes in a row
resolving the same requested path produce n pairwise distinct paths. -/
theorem ensureUniqueFilename_spec (fs : List String) (path : String) (n : Nat) :
    (path ∉ fs → ensureUniqueFilename fs path = path) ∧
    (path ∈ fs →
      ∃ k, 1 ≤ k ∧
        ensureUniqueFilename fs path =
          uniqueCandidate (trimSuffixStr path (extOf path)) (extOf path) k ∧
        uniqueCandidate (trimSuffixStr path (extOf path)) (extOf path) k ∉ fs ∧
        ∀ j, 1 ≤ j → j < k →
          uniqueCandidate (trimSuffixStr path (extOf path)) (extOf path) j ∈ fs) ∧
    (writeSequence fs path n).Nodup := by
  refine ⟨?_, ensureUniqueFilename_minimal fs path, writeSequence_nodup path n fs⟩
  intro h
  rw [ensureUniqueFilename, if_neg h]

/-- Witness for C7: a fresh path is returned unchanged; out.png colliding
with an existing file resolves to the least free suffix; three successive
writes of out.png yield pairwise distinct paths. -/
theorem ensureUniqueFilename_spec_witness :
    ensureUniqueFilename [] "out.png" = "out.png" ∧
    (∃ k, 1 ≤ k ∧
      ensureUniqueFilename ["out.png"] "out.png" =
        uniqueCandidate (trimSuffixStr "out.png" (extOf "out.png")) (extOf "out.png") k ∧
      uniqueCandidate (trimSuffixStr "out.png" (extOf "out.png")) (extOf "out.png") k ∉
        ["out.png"] ∧
      ∀ j, 1 ≤ j → j < k →
        uniqueCandidate (trimSuffixStr "out.png" (extOf "out.png")) (extOf "out.png") j ∈
          ["out.png"]) ∧
    (writeSequence ["out.png"] "out.png" 3).Nodup :=
  ⟨(ensureUniqueFilename_spec [] "out.png" 0).1 (by decide),
   (ensureUniqueFilename_spec ["out.png"] "out.png" 3).2.1 (by decide),
   (ensureUniqueFilename_spec ["out.png"] "out.png" 3).2.2⟩

/-- Claim C8: filename cleaning lower-cases, strips characters outside
letters, digits, whitespace and hyphen, collapses whitespace runs to one
underscore, trims leading and trailing underscores, and the cleaned stem is
truncated to at most 50 units before the extension; cleaning a-b-c yields
a-b-c, cleaning Cyberpunk City!! yields cyberpunk_city, and cleaning an
already-clean input again leaves it unchanged. -/
theorem generateFilename_cleaning_spec (prompt : String) :
    cleanPrompt "a-b-c" = "a-b-c" ∧
    cleanPrompt "Cyberpunk City!!" = "cyberpunk_city" ∧
    generateFilename "Cyberpunk City!!" "" 0 = "cyberpunk_city.png" ∧
    generateFilename prompt "" 0 = truncTo 50 (cleanPrompt prompt) ++ ".png" ∧
    (truncTo 50 (cleanPrompt prompt)).length ≤ 50 ∧
    (cleanPrompt prompt = prompt → cleanPrompt (cleanPrompt prompt) = cleanPrompt prompt) := by
  refine ⟨by decide, by decide, by decide, ?_, ?_, ?_⟩
  · rw [generateFilename]
    simp
  · rw [truncTo]
    by_cases h : (cleanPrompt prompt).length > 50
    · rw [if_pos h]
      have hmk : (String.mk ((cleanPrompt prompt).data.take 50)).length =
          ((cleanPrompt prompt).data.take 50).length := rfl
      rw [hmk, List.length_take]
      omega
    · rw [if_neg h]
      omega
  · intro h
    rw [h]
    exact h

/-- Witness for C8: the already-clean prompt a-b-c is a fixed point of
cleaning, and a 200-character prompt cleans to a stem of at most 50 units. -/
theorem generateFilename_cleaning_spec_witness :
    cleanPrompt (cleanPrompt "a-b-c") = cleanPrompt "a-b-c" ∧
    (truncTo 50 (cleanPrompt (String.mk (List.replicate 200 'x')))).length ≤ 50 :=
  ⟨(generateFilename_cleaning_spec "a-b-c").2.2.2.2.2 (by decide),
   (generateFilename_cleaning_spec (String.mk (List.replicate 200 'x'))).2.2.2.2.1⟩

/-- Claim C9: in the edit flow a total reference-image count of 14 is
accepted with the advisory warning, 15 or more is rejected with the explicit
count-limit error (the check runs before images are loaded and before the
client is constructed), counts above 3 and at most 14 proceed with the
advisory warning only, and counts at most 3 proceed silently. -/
theorem editImageCount_limits (n : Nat) :
    checkEditImageCount 14 = Except.ok true ∧
    (15 ≤ n → checkEditImageCount n = Except.error (editCountLimitMessage n)) ∧
    (3 < n → n ≤ 14 → checkEditImageCount n = Except.ok true) ∧
    (n ≤ 3 → checkEditImageCount n = Except.ok false) := by
  refine ⟨rfl, ?_, ?_, ?_⟩
  · intro h
    rw [checkEditImageCount, if_pos (by omega)]
  · intro h1 h2
    rw [checkEditImageCount, if_neg (by omega)]
    have hd : decide (n > 3) = true := by
      simp only [decide_eq_true_eq]
      omega
    rw [hd]
  · intro h
    rw [checkEditImageCount, if_neg (by omega)]
    have hd : decide (n > 3) = false := by
      simp only [decide_eq_false_iff_not]
      omega
    rw [hd]

/-- Witness for C9: 15 images are rejected with the count-limit error, 14
and 7 proceed with the warning, 2 proceeds silently. -/
theorem editImageCount_limits_witness :
    checkEditImageCount 15 = Except.error (editCountLimitMessage 15) ∧
    checkEditImageCount 14 = Except.ok true ∧
    checkEditImageCount 7 = Except.ok true ∧
    checkEditImageCount 2 = Except.ok false :=
  ⟨(editImageCount_limits 15).2.1 (by decide),
   (editImageCount_limits 15).1,
   (editImageCount_limits 7).2.2.1 (by decide) (by decide),
   (editImageCount_limits 2).2.2.2 (by decide)⟩

/-- Claim C10: when the payload is not valid base64, SaveImage returns the
decode error before touching the filesystem: the state after the call is
exactly the state before it, so no directory is created and no file is
written or overwritten. -/
theorem saveImage_decode_failure_pure (imageData outputPath : String) (fs : FileSystem)
    (h : base64Decode imageData = none) :
    saveImage imageData outputPath fs = (Except.error "failed to decode image data", fs) := by
  rw [saveImage, h]

/-- Witness for C10: the one-character payload is invalid base64 and leaves
the empty filesystem untouched. -/
theorem saveImage_decode_failure_pure_witness :
    base64Decode "!" = none ∧
    saveImage "!" "out/img.png" { dirs := [], files := [] } =
      (Except.error "failed to decode image data", { dirs := [], files := [] }) :=
  ⟨by decide, saveImage_decode_failure_pure "!" "out/img.png" { dirs := [], files := [] }
    (by decide)⟩

end Imagemage
